import Mathlib

/-!
Shallow embedding of the BetterForward verification/appeal state machine and
relay router (src/handlers/message_handler.py, src/handlers/callback_handler.py,
src/utils/captcha.py, db_migrate/20251225_verification_enhancement.py).

The relational store is modelled as lists of rows, the diskcache TTL cache as a
record of typed lookup maps (TTLs themselves are outside the model: a cache
entry is either present or absent), the Telegram transport as an externally
supplied outcome value, and randomness (captcha operands, image digits) as
explicit parameters.  Python exceptions that can escape the embedded code are
modelled with Except.
-/

/-- Row of the topics table: topics(user_id, thread_id). -/
structure TopicRow where
  user_id : Nat
  thread_id : Nat
deriving DecidableEq

/-- Row of the messages table: messages(received_id, forwarded_id, topic_id, in_group). -/
structure MessageRow where
  received_id : Nat
  forwarded_id : Nat
  topic_id : Nat
  in_group : Bool
deriving DecidableEq

/-- Row of the blocked_users table. -/
structure BlockedRow where
  user_id : Nat
  username : Option String
  first_name : Option String
  last_name : Option String
  block_reason : String
  blocked_at : Nat
deriving DecidableEq

/-- Row of the verification_attempts table. -/
structure AttemptRow where
  user_id : Nat
  attempt_count : Nat
  last_attempt_time : Nat
  blocked_by_attempts : Bool
deriving DecidableEq

/-- Row of the appeal_requests table. -/
structure AppealRow where
  user_id : Nat
  appeal_time : Nat
  status : String
  admin_id : Option Nat
  handled_at : Option Nat
deriving DecidableEq

/-- The persistent relational store (data/storage.db). -/
structure DB where
  topics : List TopicRow
  messages : List MessageRow
  blocked_users : List BlockedRow
  verification_attempts : List AttemptRow
  appeal_requests : List AppealRow
  verified_users : List Nat
deriving DecidableEq

/-- Value stored under a captcha_{user_id} cache key: the math captcha stores
the integer sum, the image captcha stores the 4-digit string. -/
inductive CaptchaVal where
  | num (n : Nat)
  | text (s : String)
deriving DecidableEq

/-- Python str() applied to the stored captcha value, as used by verify_captcha. -/
def CaptchaVal.str : CaptchaVal → String
  | num n => toString n
  | text s => s

/-- The diskcache TTL cache, with one typed map per family of keys used by the
handlers.  Expiry is outside the model; an entry is present or absent. -/
structure Cache where
  setting_captcha : Option String
  setting_appeal_mode : Option String
  setting_blocked_user_reply_enabled : Option String
  setting_blocked_user_reply_message : Option String
  appeal_verification : Nat → Bool
  captcha : Nat → Option CaptchaVal
  verified_flag : Nat → Option Bool
  rate_limit : Nat → Bool
  chat_threadid : Nat → Option Nat
  threadid_userid : Nat → Option Nat

/-- Update the captcha_{user_id} entry. -/
def Cache.setCaptcha (c : Cache) (uid : Nat) (v : Option CaptchaVal) : Cache :=
  { c with captcha := fun u => if u = uid then v else c.captcha u }

/-- Update the appeal_verification_{user_id} flag. -/
def Cache.setAppealVerification (c : Cache) (uid : Nat) (b : Bool) : Cache :=
  { c with appeal_verification := fun u => if u = uid then b else c.appeal_verification u }

/-- Update the verified_{user_id} entry. -/
def Cache.setVerifiedFlag (c : Cache) (uid : Nat) (v : Option Bool) : Cache :=
  { c with verified_flag := fun u => if u = uid then v else c.verified_flag u }

/-- Update the captcha_rate_limit_{user_id} flag. -/
def Cache.setRateLimit (c : Cache) (uid : Nat) (b : Bool) : Cache :=
  { c with rate_limit := fun u => if u = uid then b else c.rate_limit u }

/-- Update the chat_{user_id}_threadid entry. -/
def Cache.setChatThread (c : Cache) (uid : Nat) (v : Option Nat) : Cache :=
  { c with chat_threadid := fun u => if u = uid then v else c.chat_threadid u }

/-- Update the threadid_{thread_id}_userid entry. -/
def Cache.setThreadUser (c : Cache) (tid : Nat) (v : Option Nat) : Cache :=
  { c with threadid_userid := fun t => if t = tid then v else c.threadid_userid t }

/-- Telegram user data carried on an incoming message (message.from_user). -/
structure TUser where
  id : Nat
  username : Option String
  first_name : Option String
  last_name : Option String
deriving DecidableEq

/-- Incoming Telegram message, restricted to the fields the handlers read.
reply_to carries (message_id, from_user id) of the replied-to message. -/
structure Msg where
  message_id : Nat
  from_user : TUser
  chat_id : Nat
  text : Option String
  reply_to : Option (Nat × Nat)
deriving DecidableEq

/-- Python str(message.text): message.text is None for non-text messages and
str(None) is the string None. -/
def pyStr : Option String → String
  | none => "None"
  | some s => s

/-- Outbound side effects (bot.send_message / send_photo / answer_callback_query
calls), abstracted to tags carrying the data the claims mention. -/
inductive Reply where
  | alreadyPending
  | alreadyApproved
  | noFurtherAppeals
  | notBlocked
  | invalidUserId
  | invalidAction
  | appealChallengePrompt (question : Option String)
  | appealSubmittedPending
  | autoApproved (uid : Nat)
  | autoApprovedGroupNotice (uid : Nat)
  | adminReviewRequest (uid : Nat)
  | blockedNotice
  | incorrectAppeal
  | verificationSuccess
  | buttonPrompt (uid : Nat)
  | imagePrompt (uid : Nat)
  | incorrectRetry (attempt : Nat) (question : String)
  | autoBlockedNotice
  | notVerifiedWarn
  | invalidCaptchaSetting
  | blockedAutoReply (text : String)
  | approveNotices (uid : Nat)
  | rejectNotices (uid : Nat)
  | spamForwarded (uid : Nat)
  | autoResponse (text : String)
  | autoResponseGroupNotice (text : String)
  | forwardFailedNotice (uid : Nat)
  | mathPrompt (question : String)
  | forwardedMsg (received forwarded : Nat) (reply : Option Nat)
  | threadInfoPin (uid : Nat)
deriving DecidableEq

/- ## src/utils/captcha.py -/

/-- CaptchaManager.verify_captcha: compare str(answer) with str(stored). -/
def verify_captcha (c : Cache) (uid : Nat) (answer : String) : Bool :=
  match c.captcha uid with
  | none => false
  | some v => answer == v.str

/-- CaptchaManager.generate_captcha.  Randomness is externalized: rng supplies
the two math operands, img the 4-digit image code.  Returns the new cache, the
question returned to the caller (math only) and the sends the manager itself
performs (button prompt / image photo).  An invalid captcha type raises
ValueError, modelled as the error case. -/
def generate_captcha (c : Cache) (uid : Nat) (ctype : Option String) (rng : Nat × Nat)
    (img : String) : Except Unit (Cache × Option String × List Reply) :=
  match ctype with
  | some "math" =>
      .ok (c.setCaptcha uid (some (.num (rng.1 + rng.2))),
           some (toString rng.1 ++ " + " ++ toString rng.2 ++ " = ?"), [])
  | some "button" => .ok (c, none, [.buttonPrompt uid])
  | some "image" => .ok (c.setCaptcha uid (some (.text img)), none, [.imagePrompt uid])
  | _ => .error ()

/-- CaptchaManager.is_user_verified: cache fast-path, store fallback populating
the cache. -/
def is_user_verified (c : Cache) (uid : Nat) (db : DB) : Bool × Cache :=
  match c.verified_flag uid with
  | some v => (v, c)
  | none =>
      let v := db.verified_users.contains uid
      (v, c.setVerifiedFlag uid (some v))

/-- CaptchaManager.set_user_verified: INSERT OR REPLACE into verified_users
(no uniqueness constraint on user_id in the schema, so a plain insert) and set
the cache flag. -/
def set_user_verified (uid : Nat) (db : DB) (c : Cache) : DB × Cache :=
  ({ db with verified_users := db.verified_users ++ [uid] },
   c.setVerifiedFlag uid (some true))

/-- CaptchaManager.record_attempt: increment the stored attempt count, creating
the row at count 1 on first failure; returns the new count. -/
def record_attempt (uid : Nat) (now : Nat) (db : DB) : Nat × DB :=
  match db.verification_attempts.find? (fun r => r.user_id == uid) with
  | some r =>
      let newCount := r.attempt_count + 1
      (newCount,
       { db with verification_attempts :=
          db.verification_attempts.map (fun s =>
            if s.user_id == uid then
              { s with attempt_count := newCount, last_attempt_time := now }
            else s) })
  | none =>
      (1, { db with verification_attempts :=
              db.verification_attempts ++ [⟨uid, 1, now, false⟩] })

/-- CaptchaManager.get_attempt_count: stored count, 0 when no row. -/
def get_attempt_count (uid : Nat) (db : DB) : Nat :=
  match db.verification_attempts.find? (fun r => r.user_id == uid) with
  | some r => r.attempt_count
  | none => 0

/-- CaptchaManager.reset_attempts: DELETE FROM verification_attempts for the user. -/
def reset_attempts (uid : Nat) (db : DB) : DB :=
  { db with verification_attempts :=
      db.verification_attempts.filter (fun r => r.user_id != uid) }

/-- CaptchaManager.block_user_by_attempts: flag the attempts row, INSERT OR
REPLACE the blocked_users row (user_id is the primary key) with reason
auto_attempts, delete the verified_users rows and drop the cached verified flag. -/
def block_user_by_attempts (uid : Nat) (username first last : Option String)
    (now : Nat) (db : DB) (c : Cache) : DB × Cache :=
  let db1 :=
    { db with
        verification_attempts :=
          db.verification_attempts.map (fun r =>
            if r.user_id == uid then { r with blocked_by_attempts := true } else r),
        blocked_users :=
          db.blocked_users.filter (fun r => r.user_id != uid) ++
            [⟨uid, username, first, last, "auto_attempts", now⟩],
        verified_users := db.verified_users.filter (fun u => u != uid) }
  (db1, c.setVerifiedFlag uid none)

/- ## src/handlers/message_handler.py -/

/-- MessageHandler._submit_appeal.  An existing appeal answers with its status;
the unknown-status fall-through would reach the INSERT and violate the
UNIQUE(user_id) constraint of appeal_requests, modelled as the error case.
Without an existing appeal a pending row is inserted; in auto appeal mode the
blocked_users rows for the user are then deleted and the appeal row flipped to
approved (handled_at set, admin_id left empty). -/
def submit_appeal (uid : Nat) (db : DB) (c : Cache) (now : Nat) :
    Except Unit (DB × Cache × List Reply) :=
  match db.appeal_requests.find? (fun r => r.user_id == uid) with
  | some r =>
      if r.status = "pending" then .ok (db, c, [.alreadyPending])
      else if r.status = "approved" then .ok (db, c, [.alreadyApproved])
      else if r.status = "rejected" then .ok (db, c, [.noFurtherAppeals])
      else .error ()
  | none =>
      let db1 := { db with appeal_requests :=
                    db.appeal_requests ++ [⟨uid, now, "pending", none, none⟩] }
      let appeal_mode := (c.setting_appeal_mode).getD "manual"
      if appeal_mode = "auto" then
        let db2 := { db1 with
          blocked_users := db1.blocked_users.filter (fun r => r.user_id != uid),
          appeal_requests := db1.appeal_requests.map (fun r =>
            if r.user_id == uid then
              { r with status := "approved", handled_at := some now }
            else r) }
        .ok (db2, c, [.appealSubmittedPending, .autoApproved uid,
                      .autoApprovedGroupNotice uid])
      else
        .ok (db1, c, [.appealSubmittedPending, .adminReviewRequest uid])

/-- Result of MessageHandler._check_captcha: the returned boolean (allow the
message through) together with the store, cache and sends it produced. -/
structure CheckResult where
  allow : Bool
  db : DB
  cache : Cache
  sent : List Reply

/-- MessageHandler._check_captcha.  rng and img externalize the randomness of a
freshly generated captcha; now is the commit timestamp.  The error case is the
ValueError a garbage captcha setting raises out of the wrong-answer branch, and
the constraint violation submit_appeal can raise. -/
def check_captcha (m : Msg) (db : DB) (c : Cache) (now : Nat) (rng : Nat × Nat)
    (img : String) : Except Unit CheckResult :=
  if c.setting_captcha = some "disable" then
    .ok ⟨true, db, c, []⟩
  else
    let uid := m.from_user.id
    if (db.blocked_users.find? (fun r => r.user_id == uid)).isSome then
      if c.appeal_verification uid then
        if verify_captcha c uid (pyStr m.text) then
          let c1 := (c.setAppealVerification uid false).setCaptcha uid none
          match submit_appeal uid db c1 now with
          | .error e => .error e
          | .ok (db1, c2, sends) => .ok ⟨false, db1, c2, sends⟩
        else
          .ok ⟨false, db, (c.setAppealVerification uid false).setCaptcha uid none,
               [.incorrectAppeal]⟩
      else
        .ok ⟨false, db, c, [.blockedNotice]⟩
    else
      match c.captcha uid with
      | some _ =>
          if !verify_captcha c uid (pyStr m.text) then
            let res := record_attempt uid now db
            if res.1 ≥ 3 then
              let bres := block_user_by_attempts uid m.from_user.username
                m.from_user.first_name m.from_user.last_name now res.2 c
              .ok ⟨false, bres.1, bres.2.setCaptcha uid none, [.autoBlockedNotice]⟩
            else
              match generate_captcha c uid c.setting_captcha rng img with
              | .error e => .error e
              | .ok (c2, newq, sends) =>
                  .ok ⟨false, res.2, c2,
                       sends ++ (match newq with
                                 | some q => [.incorrectRetry res.1 q]
                                 | none => [])⟩
          else
            let vres := set_user_verified uid db c
            let db2 := reset_attempts uid vres.1
            .ok ⟨false, db2, vres.2.setCaptcha uid none, [.verificationSuccess]⟩
      | none =>
          let ver := is_user_verified c uid db
          if !ver.1 then
            if ver.2.rate_limit uid then
              .ok ⟨false, db, ver.2, []⟩
            else
              let c2 := ver.2.setRateLimit uid true
              match c.setting_captcha with
              | some "button" =>
                  match generate_captcha c2 uid (some "button") rng img with
                  | .error e => .error e
                  | .ok (c3, _, sends) =>
                      .ok ⟨false, db, c3, [.notVerifiedWarn] ++ sends⟩
              | some "math" =>
                  match generate_captcha c2 uid (some "math") rng img with
                  | .error e => .error e
                  | .ok (c3, newq, sends) =>
                      .ok ⟨false, db, c3,
                           [.notVerifiedWarn] ++ sends ++
                             [.mathPrompt (newq.getD "")]⟩
              | some "image" =>
                  match generate_captcha c2 uid (some "image") rng img with
                  | .error e => .error e
                  | .ok (c3, _, sends) =>
                      .ok ⟨false, db, c3, [.notVerifiedWarn] ++ sends⟩
              | _ =>
                  .ok ⟨false, db, c2, [.notVerifiedWarn, .invalidCaptchaSetting]⟩
          else
            .ok ⟨true, db, ver.2, []⟩

/-- MessageHandler._get_reply_id: same-author replies resolve through
received_id with the same direction flag, cross-boundary replies through
forwarded_id with the inverted direction flag; no match attaches no target. -/
def get_reply_id (m : Msg) (topic_id : Nat) (in_group : Bool) (db : DB) :
    Option Nat :=
  match m.reply_to with
  | none => none
  | some rt =>
      if rt.2 == m.from_user.id then
        match db.messages.find? (fun r =>
            r.received_id == rt.1 && r.topic_id == topic_id &&
              r.in_group == in_group) with
        | some r => some r.forwarded_id
        | none => none
      else
        match db.messages.find? (fun r =>
            r.forwarded_id == rt.1 && r.topic_id == topic_id &&
              r.in_group == !in_group) with
        | some r => some r.received_id
        | none => none

/-- Result of thread resolution. -/
structure ThreadResult where
  thread_id : Option Nat
  db : DB
  cache : Cache
  sent : List Reply

/-- MessageHandler._get_or_create_thread: cache fast path, store lookup, then
creation through the transport (createOutcome is the transport's answer, none
when create_forum_topic raises).  On creation the info message is sent and
pinned best-effort (pinOk; a failure only logs). -/
def get_or_create_thread (m : Msg) (db : DB) (c : Cache)
    (createOutcome : Option Nat) (pinOk : Bool) : ThreadResult :=
  let uid := m.from_user.id
  match c.chat_threadid uid with
  | some tid => ⟨some tid, db, c, []⟩
  | none =>
      match db.topics.find? (fun t => t.user_id == uid) with
      | some t => ⟨some t.thread_id, db, c.setChatThread uid (some t.thread_id), []⟩
      | none =>
          match createOutcome with
          | none => ⟨none, db, c, []⟩
          | some newTid =>
              ⟨some newTid,
               { db with topics := db.topics ++ [⟨uid, newTid⟩] },
               c.setChatThread uid (some newTid),
               if pinOk then [.threadInfoPin uid] else []⟩

/-- Outcome the transport reports for the send inside _forward_to_group. -/
inductive SendOutcome where
  | sent (forwarded_id : Nat)
  | threadNotFound
  | otherError
deriving DecidableEq

/-- Result of _forward_to_group. -/
structure ForwardResult where
  fwd : Option Nat
  db : DB
  cache : Cache
  sent : List Reply

/-- MessageHandler._forward_to_group: resolve the reply target, send, and on
success persist the MessageCorrelation row.  When the transport reports the
thread missing, the stale topics row is deleted, both cache entries (user id
and thread id keyed) are invalidated and None is returned without retrying;
other transport errors alert the workspace and return None. -/
def forward_to_group (m : Msg) (thread_id : Nat) (outcome : SendOutcome)
    (db : DB) (c : Cache) : ForwardResult :=
  let reply_id := get_reply_id m thread_id false db
  match outcome with
  | .sent fid =>
      ⟨some fid,
       { db with messages := db.messages ++ [⟨m.message_id, fid, thread_id, false⟩] },
       c, [.forwardedMsg m.message_id fid reply_id]⟩
  | .threadNotFound =>
      ⟨none,
       { db with topics := db.topics.filter (fun t => t.thread_id != thread_id) },
       (c.setThreadUser thread_id none).setChatThread m.from_user.id none,
       []⟩
  | .otherError =>
      ⟨none, db, c, [.forwardFailedNotice m.from_user.id]⟩

/-- External inputs of one _handle_user_message unit of work: timestamp,
randomness, the spam verdict, the matched auto response, and the transport
outcomes for thread creation, pinning and the forward itself. -/
structure Inputs where
  now : Nat
  rng : Nat × Nat
  img : String
  spam_detected : Bool
  auto_response : Option String
  createOutcome : Option Nat
  pinOk : Bool
  sendOutcome : SendOutcome

/-- Result of one _handle_user_message unit of work. -/
structure HandleResult where
  db : DB
  cache : Cache
  sent : List Reply
  forwarded : Option Nat

/-- MessageHandler._handle_user_message: captcha gate first; blocked users get
their display fields refreshed and an optional auto reply, nothing else; spam
is relayed to the spam topic without touching the relational store (the
spam-topic recreation sub-flow lives in the bot bootstrap outside this slice
and is condensed to one effect); otherwise auto response, thread resolution and
the forward. -/
def handle_user_message (m : Msg) (db : DB) (c : Cache) (inp : Inputs) :
    Except Unit HandleResult :=
  match check_captcha m db c inp.now inp.rng inp.img with
  | .error e => .error e
  | .ok r =>
      if !r.allow then .ok ⟨r.db, r.cache, r.sent, none⟩
      else
        let uid := m.from_user.id
        if (r.db.blocked_users.find? (fun b => b.user_id == uid)).isSome then
          let db1 := { r.db with blocked_users := r.db.blocked_users.map (fun b =>
            if b.user_id == uid then
              { b with username := m.from_user.username,
                       first_name := m.from_user.first_name,
                       last_name := m.from_user.last_name }
            else b) }
          let sends :=
            if r.cache.setting_blocked_user_reply_enabled = some "enable" then
              match r.cache.setting_blocked_user_reply_message with
              | some t => [.blockedAutoReply t]
              | none => []
            else []
          .ok ⟨db1, r.cache, r.sent ++ sends, none⟩
        else if inp.spam_detected then
          .ok ⟨r.db, r.cache, r.sent ++ [.spamForwarded uid], none⟩
        else
          let auto_sends : List Reply := match inp.auto_response with
            | some t => [.autoResponse t]
            | none => []
          let tr := get_or_create_thread m r.db r.cache inp.createOutcome inp.pinOk
          match tr.thread_id with
          | none => .ok ⟨tr.db, tr.cache, r.sent ++ auto_sends ++ tr.sent, none⟩
          | some tid =>
              let fr := forward_to_group m tid inp.sendOutcome tr.db tr.cache
              match fr.fwd with
              | none =>
                  .ok ⟨fr.db, fr.cache,
                       r.sent ++ auto_sends ++ tr.sent ++ fr.sent, none⟩
              | some fid =>
                  let group_sends : List Reply := match inp.auto_response with
                    | some t => [.autoResponseGroupNotice t]
                    | none => []
                  .ok ⟨fr.db, fr.cache,
                       r.sent ++ auto_sends ++ tr.sent ++ fr.sent ++ group_sends,
                       some fid⟩

/- ## src/handlers/callback_handler.py -/

/-- Parsed JSON value of a callback payload. -/
inductive Json where
  | null
  | bool (b : Bool)
  | num (n : Nat)
  | str (s : String)
  | arr (xs : List Json)
  | obj (fields : List (String × Json))

/-- Python exceptions relevant at the callback boundary. -/
inductive PyError where
  | jsonDecode
  | keyError
  | typeError
deriving DecidableEq

/-- Input of handle_callback_query: the literal string null, a string
json.loads rejects, or the parsed JSON value. -/
inductive CallInput where
  | nullLiteral
  | badJson
  | parsed (j : Json)

/-- Outcome of the callback dispatch prefix. -/
inductive CallOutcome where
  | droppedNull
  | droppedBadJson
  | dispatched (action : Json) (payload : Json)

/-- Python data[action]: a KeyError on a dict without the key, a TypeError on
anything that is not subscriptable by a string key. -/
def json_get_action : Json → Except PyError Json
  | .obj fields =>
      match fields.find? (fun p => p.1 == "action") with
      | some p => .ok p.2
      | none => .error .keyError
  | _ => .error .typeError

/-- CallbackHandler.handle_callback_query entry: the literal null payload and
JSON decode failures are logged and dropped; after that data[action] is read
with no handler around it, so its KeyError/TypeError escapes. -/
def handle_callback_query : CallInput → Except PyError CallOutcome
  | .nullLiteral => .ok .droppedNull
  | .badJson => .ok .droppedBadJson
  | .parsed j =>
      match json_get_action j with
      | .error e => .error e
      | .ok a => .ok (.dispatched a j)

/-- CallbackHandler._handle_appeal_request: data.get(user_id) missing answers
invalid user id; an existing appeal answers with its status (an unrecognized
status falls through); a user who is not blocked is told so; otherwise the
appeal-verification flag is set for 300s and a challenge of the configured
kind (defaulting to math, also for unknown kinds) is issued. -/
def handle_appeal_request (user_idOpt : Option Nat) (db : DB) (c : Cache)
    (rng : Nat × Nat) (img : String) : DB × Cache × List Reply :=
  match user_idOpt with
  | none => (db, c, [.invalidUserId])
  | some uid =>
      let statusHit : Option Reply :=
        match db.appeal_requests.find? (fun r => r.user_id == uid) with
        | some r =>
            if r.status = "pending" then some .alreadyPending
            else if r.status = "approved" then some .alreadyApproved
            else if r.status = "rejected" then some .noFurtherAppeals
            else none
        | none => none
      match statusHit with
      | some rep => (db, c, [rep])
      | none =>
          if (db.blocked_users.find? (fun r => r.user_id == uid)).isNone then
            (db, c, [.notBlocked])
          else
            let c1 := c.setAppealVerification uid true
            let ctype := (c.setting_captcha).getD "math"
            match ctype with
            | "button" =>
                match generate_captcha c1 uid (some "button") rng img with
                | .error _ => (db, c1, [])
                | .ok (c2, _, s) => (db, c2, s ++ [.appealChallengePrompt none])
            | "image" =>
                match generate_captcha c1 uid (some "image") rng img with
                | .error _ => (db, c1, [])
                | .ok (c2, _, s) => (db, c2, s ++ [.appealChallengePrompt none])
            | _ =>
                match generate_captcha c1 uid (some "math") rng img with
                | .error _ => (db, c1, [])
                | .ok (c2, q, s) => (db, c2, s ++ [.appealChallengePrompt q])

/-- CallbackHandler._handle_approve_appeal: unconditionally set any existing
appeal row of the user to approved (recording admin and time), delete the
blocked_users rows and delete the verification_attempts rows.  No existence or
status check precedes these statements. -/
def handle_approve_appeal (admin_id uid now : Nat) (db : DB) : DB × List Reply :=
  ({ db with
      appeal_requests := db.appeal_requests.map (fun r =>
        if r.user_id == uid then
          { r with status := "approved", admin_id := some admin_id,
                   handled_at := some now }
        else r),
      blocked_users := db.blocked_users.filter (fun r => r.user_id != uid),
      verification_attempts :=
        db.verification_attempts.filter (fun r => r.user_id != uid) },
   [.approveNotices uid])

/-- CallbackHandler._handle_reject_appeal: unconditionally set any existing
appeal row of the user to rejected; blocked_users is left intact. -/
def handle_reject_appeal (admin_id uid now : Nat) (db : DB) : DB × List Reply :=
  ({ db with appeal_requests := db.appeal_requests.map (fun r =>
      if r.user_id == uid then
        { r with status := "rejected", admin_id := some admin_id,
                 handled_at := some now }
      else r) },
   [.rejectNotices uid])

/-- Dispatch arm for the approve_appeal action in _handle_admin_callback: a
payload without a user_id field answers Invalid action and mutates nothing.
Payload fields are restricted to the integer ids the program's own inline
keyboards serialize. -/
def approve_appeal_dispatch (fields : List (String × Nat)) (admin_id now : Nat)
    (db : DB) : DB × List Reply :=
  match fields.find? (fun p => p.1 == "user_id") with
  | none => (db, [.invalidAction])
  | some p => handle_approve_appeal admin_id p.2 now db

/-- Dispatch arm for the reject_appeal action in _handle_admin_callback. -/
def reject_appeal_dispatch (fields : List (String × Nat)) (admin_id now : Nat)
    (db : DB) : DB × List Reply :=
  match fields.find? (fun p => p.1 == "user_id") with
  | none => (db, [.invalidAction])
  | some p => handle_reject_appeal admin_id p.2 now db

/- ## db_migrate/20251225_verification_enhancement.py -/

/-- Schema-plus-settings view of the store that the migration step touches:
names of existing tables, columns of blocked_users, and the settings rows. -/
structure Store where
  tables : List String
  blocked_users_cols : List String
  settings : List (String × String)
deriving DecidableEq

/-- Modelled from the spec: the base schema creating the settings table is not
part of this slice; per the spec it is a generic settings(key, value) table
whose key is the row identity, so INSERT OR IGNORE inserts only when the key is
absent. -/
def insertOrIgnoreSetting (s : Store) (key value : String) : Store :=
  if (s.settings.find? (fun p => p.1 == key)).isSome then s
  else { s with settings := s.settings ++ [(key, value)] }

/-- Migration upgrade: CREATE TABLE IF NOT EXISTS for verification_attempts and
appeal_requests, ALTER TABLE blocked_users guarded by a PRAGMA column check,
and two INSERT OR IGNORE settings rows. -/
def upgrade (s : Store) : Store :=
  let s1 := if s.tables.contains "verification_attempts" then s
            else { s with tables := s.tables ++ ["verification_attempts"] }
  let s2 := if s1.tables.contains "appeal_requests" then s1
            else { s1 with tables := s1.tables ++ ["appeal_requests"] }
  let s3 := if s2.blocked_users_cols.contains "block_reason" then s2
            else { s2 with blocked_users_cols :=
                     s2.blocked_users_cols ++ ["block_reason"] }
  let s4 := insertOrIgnoreSetting s3 "appeal_mode" "manual"
  insertOrIgnoreSetting s4 "captcha_image_enabled" "disable"

/-- A store that already reflects the verification-enhancement migration. -/
def Migrated (s : Store) : Prop :=
  s.tables.contains "verification_attempts" = true ∧
  s.tables.contains "appeal_requests" = true ∧
  s.blocked_users_cols.contains "block_reason" = true ∧
  (s.settings.find? (fun p => p.1 == "appeal_mode")).isSome = true ∧
  (s.settings.find? (fun p => p.1 == "captcha_image_enabled")).isSome = true

instance (s : Store) : Decidable (Migrated s) := by
  unfold Migrated; infer_instance

/- ## Auxiliary predicates and decimal-string development -/

/-- The spec's one-shot appeal invariant: at most one appeal_requests row per
user id. -/
def AppealUnique (db : DB) : Prop :=
  ∀ uid : Nat, db.appeal_requests.countP (fun r => r.user_id == uid) ≤ 1

/-- The status-specific response of the one-shot appeal rule. -/
def statusReply (status : String) : Reply :=
  if status = "pending" then .alreadyPending
  else if status = "approved" then .alreadyApproved
  else .noFurtherAppeals

/-- Identity, reason and time of a blocked_users row: the fields the
blocked-user deny path may never change. -/
def blockedShape (r : BlockedRow) : Nat × String × Nat :=
  (r.user_id, r.block_reason, r.blocked_at)

/-- Numeric value of a decimal digit character. -/
def digitVal (c : Char) : Nat := c.toNat - 48

/-- Reference decimal digit list of a natural number, most significant first. -/
def natDigits (n : Nat) : List Char :=
  if n < 10 then [Nat.digitChar n]
  else natDigits (n / 10) ++ [Nat.digitChar (n % 10)]
termination_by n
decreasing_by exact Nat.div_lt_self (by omega) (by omega)

/-- Valuation of a decimal digit list. -/
def valOfDigits (l : List Char) (acc : Nat) : Nat :=
  l.foldl (fun a c => a * 10 + digitVal c) acc

/- ## Concrete fixtures for witnesses and counterexamples -/

/-- Cache with no entries and no settings. -/
def emptyCache : Cache where
  setting_captcha := none
  setting_appeal_mode := none
  setting_blocked_user_reply_enabled := none
  setting_blocked_user_reply_message := none
  appeal_verification := fun _ => false
  captcha := fun _ => none
  verified_flag := fun _ => none
  rate_limit := fun _ => false
  chat_threadid := fun _ => none
  threadid_userid := fun _ => none

/-- Empty store. -/
def emptyDB : DB := ⟨[], [], [], [], [], []⟩

/-- Cache configured for math captchas with manual appeal mode. -/
def mathCache : Cache := { emptyCache with setting_captcha := some "math" }

/-- Cache configured for math captchas with automatic appeal mode. -/
def autoCache : Cache := { mathCache with setting_appeal_mode := some "auto" }

/-- Sample user. -/
def uBob : TUser := ⟨1, some "bob", some "Bob", none⟩

/-- Sample plain text message from uBob. -/
def msgBob (s : String) : Msg := ⟨100, uBob, 1, some s, none⟩

/-- Store with uBob auto-blocked after exhausting attempts and no appeal row. -/
def exBlockedDB : DB :=
  { emptyDB with
      blocked_users := [⟨1, none, none, none, "auto_attempts", 0⟩],
      verification_attempts := [⟨1, 3, 0, true⟩] }

/- ## General list helpers -/

/-- find? commutes with a map that does not disturb the predicate. -/
theorem find?_map_comm {α : Type} (l : List α) (g : α → α) (p : α → Bool)
    (hg : ∀ a, p (g a) = p a) : (l.map g).find? p = (l.find? p).map g := by
  induction l with
  | nil => rfl
  | cons a t ih =>
    by_cases h : p a
    · rw [List.map_cons, List.find?_cons_of_pos _ (by rw [hg]; exact h),
          List.find?_cons_of_pos _ h]
      rfl
    · rw [List.map_cons, List.find?_cons_of_neg _ (by rw [hg]; simpa using h),
          List.find?_cons_of_neg _ (by simpa using h), ih]

/-- A keyed update over a list without a matching row is the identity. -/
theorem map_if_no_match {α : Type} (p : α → Bool) (g : α → α) :
    ∀ l : List α, l.find? p = none → (l.map fun a => if p a then g a else a) = l := by
  intro l
  induction l with
  | nil => intro _; rfl
  | cons a t ih =>
    intro h
    have hall := List.find?_eq_none.mp h
    simp only [List.map_cons]
    rw [if_neg (hall a (by simp))]
    rw [ih (List.find?_eq_none.mpr fun x hx => hall x (by simp [hx]))]

/-- Filtering a key out makes the keyed lookup fail. -/
theorem find?_after_filter_ne {α : Type} (key : α → Nat) (l : List α) (uid : Nat) :
    (l.filter fun a => key a != uid).find? (fun a => key a == uid) = none := by
  apply List.find?_eq_none.mpr
  intro a ha
  have h2 := (List.mem_filter.mp ha).2
  simpa using h2

/-- Filtering a value out of a list of keys removes it. -/
theorem contains_after_filter_ne (l : List Nat) (uid : Nat) :
    (l.filter fun u => u != uid).contains uid = false := by
  rw [Bool.eq_false_iff]
  intro hc
  have hm := List.elem_iff.mp hc
  have := (List.mem_filter.mp hm).2
  simp at this

/-- isSome of find? distributes over append. -/
theorem find?_isSome_append {α : Type} (p : α → Bool) (l1 l2 : List α) :
    ((l1 ++ l2).find? p).isSome = (((l1.find? p).isSome) || ((l2.find? p).isSome)) := by
  rw [List.find?_append]
  cases h : l1.find? p <;> simp [Option.or]

/- ## Decimal strings of distinct naturals are distinct -/

/-- digitVal inverts Nat.digitChar on decimal digits. -/
theorem digitVal_digitChar (d : Nat) (h : d < 10) : digitVal (Nat.digitChar d) = d := by
  interval_cases d <;> rfl

/-- Valuation of an appended digit list. -/
theorem valOfDigits_append (l1 l2 : List Char) (acc : Nat) :
    valOfDigits (l1 ++ l2) acc = valOfDigits l2 (valOfDigits l1 acc) := by
  simp [valOfDigits, List.foldl_append]

/-- The reference digit list evaluates back to its number. -/
theorem valOfDigits_natDigits (n : Nat) : valOfDigits (natDigits n) 0 = n := by
  induction n using Nat.strong_induction_on with
  | _ n ih =>
    by_cases h : n < 10
    · rw [natDigits]
      simp [h, valOfDigits, digitVal_digitChar n h]
    · rw [natDigits]
      simp only [h, if_false]
      rw [valOfDigits_append]
      have hrec := ih (n / 10) (Nat.div_lt_self (by omega) (by omega))
      simp [valOfDigits, hrec, digitVal_digitChar _ (Nat.mod_lt _ (by omega))] at hrec ⊢
      omega

/-- The digit accumulator of Nat.toDigitsCore is a suffix. -/
theorem toDigitsCore_append (b f : Nat) : ∀ (n : Nat) (ds : List Char),
    Nat.toDigitsCore b f n ds = Nat.toDigitsCore b f n [] ++ ds := by
  induction f with
  | zero => intro n ds; simp [Nat.toDigitsCore]
  | succ f ih =>
    intro n ds
    simp only [Nat.toDigitsCore]
    by_cases h : n / b = 0
    · simp [h]
    · simp only [h, if_false]
      rw [ih, ih (n / b) [(n % b).digitChar]]
      simp

/-- With sufficient fuel, Nat.toDigitsCore computes the reference digit list. -/
theorem toDigitsCore_eq_natDigits (n : Nat) : ∀ (f : Nat), n < f →
    Nat.toDigitsCore 10 f n [] = natDigits n := by
  induction n using Nat.strong_induction_on with
  | _ n ih =>
    intro f hf
    match f, hf with
    | f + 1, hf =>
      simp only [Nat.toDigitsCore]
      by_cases h10 : n < 10
      · have h0 : n / 10 = 0 := Nat.div_eq_of_lt h10
        rw [natDigits]
        simp [h0, h10, Nat.mod_eq_of_lt h10]
      · have hpos : 0 < n / 10 := Nat.div_pos (by omega) (by omega)
        have hne : ¬ (n / 10 = 0) := by omega
        rw [if_neg hne]
        rw [toDigitsCore_append]
        have hlt : n / 10 < n := Nat.div_lt_self (by omega) (by omega)
        rw [ih (n / 10) hlt f (by omega)]
        conv_rhs => rw [natDigits]
        simp [h10]

/-- Nat.repr is injective: distinct naturals have distinct decimal strings. -/
theorem natRepr_injective : Function.Injective Nat.repr := by
  intro m n h
  have hd : natDigits m = natDigits n := by
    have hm : Nat.toDigits 10 m = natDigits m :=
      toDigitsCore_eq_natDigits m (m + 1) (by omega)
    have hn : Nat.toDigits 10 n = natDigits n :=
      toDigitsCore_eq_natDigits n (n + 1) (by omega)
    have hs : (Nat.toDigits 10 m).asString = (Nat.toDigits 10 n).asString := h
    rw [hm, hn] at hs
    simpa [List.asString, String.ext_iff] using hs
  have hv := valOfDigits_natDigits m
  rw [hd, valOfDigits_natDigits] at hv
  exact hv.symm

/-- toString on Nat is injective. -/
theorem toString_nat_injective : Function.Injective (toString : Nat → String) :=
  natRepr_injective

/- ## C9: migration idempotence -/

/-- insertOrIgnoreSetting does not touch the schema. -/
theorem insertOrIgnore_tables (s : Store) (k v : String) :
    (insertOrIgnoreSetting s k v).tables = s.tables := by
  unfold insertOrIgnoreSetting
  split_ifs <;> rfl

/-- insertOrIgnoreSetting does not touch blocked_users columns. -/
theorem insertOrIgnore_cols (s : Store) (k v : String) :
    (insertOrIgnoreSetting s k v).blocked_users_cols = s.blocked_users_cols := by
  unfold insertOrIgnoreSetting
  split_ifs <;> rfl

/-- After insertOrIgnoreSetting the key is present. -/
theorem insertOrIgnore_key (s : Store) (k v : String) :
    ((insertOrIgnoreSetting s k v).settings.find? (fun p => p.1 == k)).isSome = true := by
  unfold insertOrIgnoreSetting
  split_ifs with h
  · exact h
  · rw [find?_isSome_append]
    simp

/-- insertOrIgnoreSetting preserves present keys. -/
theorem insertOrIgnore_mono (s : Store) (k v k2 : String)
    (h : ((s.settings.find? (fun p => p.1 == k2)).isSome) = true) :
    (((insertOrIgnoreSetting s k v).settings.find? (fun p => p.1 == k2)).isSome) = true := by
  unfold insertOrIgnoreSetting
  split_ifs
  · exact h
  · rw [find?_isSome_append, h]
    rfl

/-- Upgrading any store yields a migrated store. -/
theorem upgrade_establishes_migrated (s : Store) : Migrated (upgrade s) := by
  unfold upgrade Migrated
  refine ⟨?_, ?_, ?_, ?_, ?_⟩ <;>
    simp only [insertOrIgnore_tables, insertOrIgnore_cols] <;>
    split_ifs <;>
    first
      | exact insertOrIgnore_key _ _ _
      | exact insertOrIgnore_mono _ _ _ _ (insertOrIgnore_key _ _ _)
      | assumption
      | simp_all [List.elem_iff]

/-- An insertOrIgnoreSetting whose key is already present is the identity. -/
theorem insertOrIgnore_present_eq (s : Store) (k v : String)
    (h : ((s.settings.find? (fun p => p.1 == k)).isSome) = true) :
    insertOrIgnoreSetting s k v = s := by
  unfold insertOrIgnoreSetting
  rw [if_pos h]

/-- Upgrading an already-migrated store changes nothing. -/
theorem migrated_upgrade_eq (s : Store) (h : Migrated s) : upgrade s = s := by
  obtain ⟨h1, h2, h3, h4, h5⟩ := h
  unfold upgrade
  simp only [h1, h2, h3, if_true]
  rw [insertOrIgnore_present_eq _ _ _ h4, insertOrIgnore_present_eq _ _ _ h5]

/-- C9: running the migration step against a store that already reflects it
produces no schema or data change and no error (the embedded upgrade is total),
and applying the migration twice always equals applying it once. -/
theorem migration_idempotent (s : Store) (h : Migrated s) :
    upgrade s = s ∧ upgrade (upgrade s) = upgrade s :=
  ⟨migrated_upgrade_eq s h,
   migrated_upgrade_eq (upgrade s) (upgrade_establishes_migrated s)⟩

/-- Witness for C9 at a concrete migrated store. -/
theorem migration_idempotent_witness :
    Migrated ⟨["verification_attempts", "appeal_requests"], ["block_reason"],
              [("appeal_mode", "manual"), ("captcha_image_enabled", "disable")]⟩ ∧
    (upgrade ⟨["verification_attempts", "appeal_requests"], ["block_reason"],
              [("appeal_mode", "manual"), ("captcha_image_enabled", "disable")]⟩ =
      ⟨["verification_attempts", "appeal_requests"], ["block_reason"],
       [("appeal_mode", "manual"), ("captcha_image_enabled", "disable")]⟩ ∧
     upgrade (upgrade ⟨["verification_attempts", "appeal_requests"], ["block_reason"],
              [("appeal_mode", "manual"), ("captcha_image_enabled", "disable")]⟩) =
       upgrade ⟨["verification_attempts", "appeal_requests"], ["block_reason"],
                [("appeal_mode", "manual"), ("captcha_image_enabled", "disable")]⟩) :=
  ⟨by decide, migration_idempotent _ (by decide)⟩

/- ## C8: reply correlation asymmetry -/

/-- C8: for a reply in a given thread and direction, a reply by the original
author of the referenced message resolves through received_id with the same
direction flag, a cross-boundary reply through forwarded_id with the inverted
flag, and a missing correlation row attaches no reply target. -/
theorem reply_correlation (m : Msg) (topic : Nat) (ing : Bool) (db : DB)
    (rid author : Nat) (h : m.reply_to = some (rid, author)) :
    (author = m.from_user.id →
      get_reply_id m topic ing db =
        (db.messages.find? (fun r =>
          r.received_id == rid && r.topic_id == topic && r.in_group == ing)).map
          (fun r => r.forwarded_id)) ∧
    (author ≠ m.from_user.id →
      get_reply_id m topic ing db =
        (db.messages.find? (fun r =>
          r.forwarded_id == rid && r.topic_id == topic && r.in_group == !ing)).map
          (fun r => r.received_id)) := by
  constructor
  · intro ha
    subst ha
    simp only [get_reply_id, h]
    rw [if_pos (by simp)]
    cases hf : db.messages.find? (fun r =>
        r.received_id == rid && r.topic_id == topic && r.in_group == ing) <;>
      simp [hf]
  · intro ha
    simp only [get_reply_id, h]
    rw [if_neg (by simpa using ha)]
    cases hf : db.messages.find? (fun r =>
        r.forwarded_id == rid && r.topic_id == topic && r.in_group == !ing) <;>
      simp [hf]

/-- Witness for C8: with correlation row (10, 77, topic 5, user direction), a
same-author reply to 10 resolves to 77 and a cross-boundary group reply to 77
resolves to 10. -/
theorem reply_correlation_witness :
    ((⟨100, uBob, 1, some "hi", some (10, 1)⟩ : Msg).reply_to = some (10, 1)) ∧
    get_reply_id ⟨100, uBob, 1, some "hi", some (10, 1)⟩ 5 false
      { emptyDB with messages := [⟨10, 77, 5, false⟩] } = some 77 ∧
    get_reply_id ⟨200, ⟨42, none, some "Admin", none⟩, 9, some "re", some (77, 777)⟩ 5 true
      { emptyDB with messages := [⟨10, 77, 5, false⟩] } = some 10 := by
  refine ⟨rfl, ?_, ?_⟩
  · have hth := (reply_correlation ⟨100, uBob, 1, some "hi", some (10, 1)⟩ 5 false
      { emptyDB with messages := [⟨10, 77, 5, false⟩] } 10 1 rfl).1 rfl
    rw [hth]; rfl
  · have hth := (reply_correlation ⟨200, ⟨42, none, some "Admin", none⟩, 9, some "re",
      some (77, 777)⟩ 5 true
      { emptyDB with messages := [⟨10, 77, 5, false⟩] } 77 777 rfl).2 (by decide)
    rw [hth]; rfl

/- ## C3: callback dispatch on malformed payloads -/

/-- C3 counterexample: a payload that is valid JSON but lacks the action field
raises a KeyError out of handle_callback_query instead of being dropped. -/
theorem callback_malformed_raises :
    handle_callback_query (.parsed (.obj [("user_id", .num 1)])) =
      .error .keyError := rfl

/-- C3 (amended): only JSON decode failures and the literal null payload are
logged and dropped; a payload that parses to a non-object raises TypeError and
an object without the action field raises KeyError out of the handler. -/
theorem callback_dispatch_totality :
    (handle_callback_query .nullLiteral = .ok .droppedNull) ∧
    (handle_callback_query .badJson = .ok .droppedBadJson) ∧
    (∀ (fields : List (String × Json)) (p : String × Json),
        fields.find? (fun q => q.1 == "action") = some p →
        handle_callback_query (.parsed (.obj fields)) =
          .ok (.dispatched p.2 (.obj fields))) ∧
    (∀ fields : List (String × Json),
        fields.find? (fun q => q.1 == "action") = none →
        handle_callback_query (.parsed (.obj fields)) = .error .keyError) ∧
    (∀ j : Json, (∀ fields, j ≠ .obj fields) →
        handle_callback_query (.parsed j) = .error .typeError) := by
  refine ⟨rfl, rfl, ?_, ?_, ?_⟩
  · intro fields p hf
    simp [handle_callback_query, json_get_action, hf]
  · intro fields hf
    simp [handle_callback_query, json_get_action, hf]
  · intro j hj
    cases j <;> first | rfl | exact absurd rfl (hj _)

/-- Witness for C3 at concrete payloads. -/
theorem callback_dispatch_totality_witness :
    handle_callback_query (.parsed (.obj [("action", .str "menu")])) =
      .ok (.dispatched (.str "menu") (.obj [("action", .str "menu")])) ∧
    handle_callback_query (.parsed (.obj [("x", .num 0)])) = .error .keyError ∧
    handle_callback_query (.parsed (.arr [])) = .error .typeError := by
  refine ⟨?_, ?_, ?_⟩
  · exact callback_dispatch_totality.2.2.1 [("action", .str "menu")]
      ("action", .str "menu") rfl
  · exact callback_dispatch_totality.2.2.2.1 [("x", .num 0)] rfl
  · exact callback_dispatch_totality.2.2.2.2 (.arr []) (fun _ h => Json.noConfusion h)

/- ## C1: resolveAppeal without a pending appeal -/

/-- C1 counterexample: approving the appeal of user 1, who has no
appeal_requests row, deletes the blocked_users row anyway and does not answer
Invalid action. -/
theorem approve_nonexistent_appeal_mutates :
    exBlockedDB.appeal_requests = [] ∧
    (handle_approve_appeal 9 1 5 exBlockedDB).1.blocked_users = [] ∧
    exBlockedDB.blocked_users ≠ [] ∧
    (handle_approve_appeal 9 1 5 exBlockedDB).2 ≠ [.invalidAction] := by
  refine ⟨rfl, rfl, ?_, ?_⟩ <;> decide

/-- C1 (amended): approve and reject never check the appeal row; the Invalid
action response arises only for payloads missing the user_id field (and then
nothing is mutated); given a user id with no appeal row, approve still deletes
the blocked_users and verification_attempts rows while creating or changing no
appeal row, and reject changes nothing at all. -/
theorem resolve_appeal_unchecked (admin_id uid now : Nat) (db : DB)
    (fields : List (String × Nat))
    (hnofield : fields.find? (fun p => p.1 == "user_id") = none)
    (hnoappeal : db.appeal_requests.find? (fun r => r.user_id == uid) = none) :
    approve_appeal_dispatch fields admin_id now db = (db, [.invalidAction]) ∧
    reject_appeal_dispatch fields admin_id now db = (db, [.invalidAction]) ∧
    (handle_approve_appeal admin_id uid now db).1.blocked_users.find?
        (fun r => r.user_id == uid) = none ∧
    (handle_approve_appeal admin_id uid now db).1.verification_attempts.find?
        (fun r => r.user_id == uid) = none ∧
    (handle_approve_appeal admin_id uid now db).1.appeal_requests =
      db.appeal_requests ∧
    (handle_approve_appeal admin_id uid now db).2 = [.approveNotices uid] ∧
    (handle_reject_appeal admin_id uid now db).1 = db ∧
    (handle_reject_appeal admin_id uid now db).2 = [.rejectNotices uid] := by
  refine ⟨?_, ?_, ?_, ?_, ?_, rfl, ?_, rfl⟩
  · simp [approve_appeal_dispatch, hnofield]
  · simp [reject_appeal_dispatch, hnofield]
  · exact find?_after_filter_ne (fun r : BlockedRow => r.user_id) _ _
  · exact find?_after_filter_ne (fun r : AttemptRow => r.user_id) _ _
  · exact map_if_no_match _ _ _ hnoappeal
  · have hm : (db.appeal_requests.map (fun r =>
        if r.user_id == uid then
          { r with status := "rejected", admin_id := some admin_id,
                   handled_at := some now }
        else r)) = db.appeal_requests :=
      map_if_no_match _ _ _ hnoappeal
    unfold handle_reject_appeal
    rw [hm]

/-- Witness for C1 at concrete inputs. -/
theorem resolve_appeal_unchecked_witness :
    (([] : List (String × Nat)).find? (fun p => p.1 == "user_id") = none) ∧
    (exBlockedDB.appeal_requests.find? (fun r => r.user_id == 1) = none) ∧
    (approve_appeal_dispatch [] 9 7 exBlockedDB = (exBlockedDB, [.invalidAction]) ∧
     reject_appeal_dispatch [] 9 7 exBlockedDB = (exBlockedDB, [.invalidAction]) ∧
     (handle_approve_appeal 9 1 7 exBlockedDB).1.blocked_users.find?
         (fun r => r.user_id == 1) = none ∧
     (handle_approve_appeal 9 1 7 exBlockedDB).1.verification_attempts.find?
         (fun r => r.user_id == 1) = none ∧
     (handle_approve_appeal 9 1 7 exBlockedDB).1.appeal_requests =
       exBlockedDB.appeal_requests ∧
     (handle_approve_appeal 9 1 7 exBlockedDB).2 = [.approveNotices 1] ∧
     (handle_reject_appeal 9 1 7 exBlockedDB).1 = exBlockedDB ∧
     (handle_reject_appeal 9 1 7 exBlockedDB).2 = [.rejectNotices 1]) :=
  ⟨rfl, rfl, resolve_appeal_unchecked 9 1 7 exBlockedDB [] rfl rfl⟩

/- ## C2: auto appeal mode -/

/-- C2 counterexample: auto-mode appeal submission for user 1 deletes the
blocked_users row and approves the appeal, but leaves the
verification_attempts row (count 3) in place. -/
theorem auto_appeal_keeps_attempts :
    (submit_appeal 1 exBlockedDB autoCache 7).toOption.map
        (fun r => r.1.verification_attempts) = some [⟨1, 3, 0, true⟩] ∧
    (submit_appeal 1 exBlockedDB autoCache 7).toOption.map
        (fun r => r.1.blocked_users) = some [] ∧
    (submit_appeal 1 exBlockedDB autoCache 7).toOption.map
        (fun r => r.1.appeal_requests.map AppealRow.status) = some ["approved"] :=
  ⟨rfl, rfl, rfl⟩

/-- C2 (amended): when appeal_mode is auto, appeal submission deletes the
blocked_users rows of the user and flips the freshly inserted appeal row to
approved, but does not delete the verification_attempts row: the attempt count
is retained, unlike a manual approval. -/
theorem submit_appeal_auto (uid now : Nat) (db : DB) (c : Cache)
    (hmode : c.setting_appeal_mode = some "auto")
    (hnoappeal : db.appeal_requests.find? (fun r => r.user_id == uid) = none) :
    submit_appeal uid db c now =
      .ok ({ db with
              blocked_users := db.blocked_users.filter (fun r => r.user_id != uid),
              appeal_requests :=
                db.appeal_requests ++ [⟨uid, now, "approved", none, some now⟩] },
           c, [.appealSubmittedPending, .autoApproved uid,
               .autoApprovedGroupNotice uid]) := by
  have hmap : ((db.appeal_requests ++ ([⟨uid, now, "pending", none, none⟩] : List AppealRow)).map
      (fun r : AppealRow =>
        if r.user_id == uid then
          { r with status := "approved", handled_at := some now }
        else r)) = db.appeal_requests ++ [⟨uid, now, "approved", none, some now⟩] := by
    rw [List.map_append, map_if_no_match _ _ _ hnoappeal]
    simp
  simp only [submit_appeal, hnoappeal, hmode, Option.getD_some, if_true]
  rw [hmap]

/-- Witness for C2 at a concrete blocked user with attempts. -/
theorem submit_appeal_auto_witness :
    autoCache.setting_appeal_mode = some "auto" ∧
    exBlockedDB.appeal_requests.find? (fun r => r.user_id == 1) = none ∧
    submit_appeal 1 exBlockedDB autoCache 7 =
      .ok ({ exBlockedDB with
              blocked_users := exBlockedDB.blocked_users.filter (fun r => r.user_id != 1),
              appeal_requests := [⟨1, 7, "approved", none, some 7⟩] },
           autoCache, [.appealSubmittedPending, .autoApproved 1,
                       .autoApprovedGroupNotice 1]) :=
  ⟨rfl, rfl, submit_appeal_auto 1 7 exBlockedDB autoCache rfl rfl⟩

/- ## C6: one-shot appeal invariant -/

/-- countP is stable under a map that does not disturb the predicate. -/
theorem countP_map_key {α : Type} (l : List α) (g : α → α) (p : α → Bool)
    (hg : ∀ a, p (g a) = p a) : (l.map g).countP p = l.countP p := by
  rw [List.countP_map]
  exact List.countP_congr (fun a _ => by simp [Function.comp_apply, hg a])

/-- Appending a fresh-keyed row keeps per-key multiplicity at most one. -/
theorem appeal_unique_append (l : List AppealRow) (row : AppealRow)
    (hf : l.find? (fun a => a.user_id == row.user_id) = none)
    (hu : ∀ u, l.countP (fun a => a.user_id == u) ≤ 1) :
    ∀ u, ((l ++ [row]).countP (fun a => a.user_id == u)) ≤ 1 := by
  intro u
  rw [List.countP_append]
  by_cases hcase : row.user_id = u
  · have h0 : l.countP (fun a => a.user_id == u) = 0 := by
      apply List.countP_eq_zero.mpr
      intro a ha
      have hne := List.find?_eq_none.mp hf a ha
      simp only [beq_iff_eq] at hne ⊢
      omega
    rw [h0]
    simp [List.countP_cons, hcase]
  · have h1 : ([row].countP (fun a => a.user_id == u)) = 0 := by
      simp [List.countP_cons, hcase]
    rw [h1]
    simpa using hu u

/-- A key-preserving update keeps per-key multiplicity at most one. -/
theorem appeal_unique_map (l : List AppealRow) (g : AppealRow → AppealRow)
    (hg : ∀ r, (g r).user_id = r.user_id)
    (hu : ∀ u, l.countP (fun a => a.user_id == u) ≤ 1) :
    ∀ u, ((l.map g).countP (fun a => a.user_id == u)) ≤ 1 := by
  intro u
  rw [countP_map_key l g _ (fun a => by rw [hg])]
  exact hu u

/-- submit_appeal preserves the at-most-one-appeal-per-user invariant. -/
theorem submit_appeal_preserves_unique (uid now : Nat) (db : DB) (c : Cache)
    (out : DB × Cache × List Reply) (hu : AppealUnique db)
    (hsub : submit_appeal uid db c now = .ok out) : AppealUnique out.1 := by
  unfold submit_appeal at hsub
  cases hf : db.appeal_requests.find? (fun a => a.user_id == uid) with
  | some r0 =>
      rw [hf] at hsub
      dsimp only at hsub
      by_cases h1 : r0.status = "pending"
      · rw [if_pos h1] at hsub
        cases hsub
        exact hu
      · rw [if_neg h1] at hsub
        by_cases h2 : r0.status = "approved"
        · rw [if_pos h2] at hsub
          cases hsub
          exact hu
        · rw [if_neg h2] at hsub
          by_cases h3 : r0.status = "rejected"
          · rw [if_pos h3] at hsub
            cases hsub
            exact hu
          · rw [if_neg h3] at hsub
            cases hsub
  | none =>
      rw [hf] at hsub
      dsimp only at hsub
      have hfr : db.appeal_requests.find?
          (fun a => a.user_id == (⟨uid, now, "pending", none, none⟩ : AppealRow).user_id) = none := hf
      by_cases hm : (c.setting_appeal_mode).getD "manual" = "auto"
      · rw [if_pos hm] at hsub
        cases hsub
        intro u
        exact appeal_unique_map _ _
          (fun r => by by_cases h : r.user_id == uid <;> simp [h])
          (appeal_unique_append _ _ hfr hu) u
      · rw [if_neg hm] at hsub
        cases hsub
        intro u
        exact appeal_unique_append _ _ hfr hu u

/-- C6: a user with an existing appeal row is answered with the status-specific
response by both the appeal affordance and appeal submission, with no store
change, and submit_appeal (the only appeal-creating operation) preserves the
at-most-one-appeal-per-user invariant. -/
theorem one_shot_appeal (uid now : Nat) (db : DB) (c : Cache) (rng : Nat × Nat)
    (img : String) (r : AppealRow)
    (hfind : db.appeal_requests.find? (fun a => a.user_id == uid) = some r)
    (hs : r.status = "pending" ∨ r.status = "approved" ∨ r.status = "rejected") :
    submit_appeal uid db c now = .ok (db, c, [statusReply r.status]) ∧
    handle_appeal_request (some uid) db c rng img = (db, c, [statusReply r.status]) ∧
    (∀ (u0 n0 : Nat) (db0 : DB) (c0 : Cache) (out : DB × Cache × List Reply),
        AppealUnique db0 → submit_appeal u0 db0 c0 n0 = .ok out →
        AppealUnique out.1) := by
  refine ⟨?_, ?_, fun u0 n0 db0 c0 out h0 hs0 =>
    submit_appeal_preserves_unique u0 n0 db0 c0 out h0 hs0⟩
  · rcases hs with h | h | h <;>
      simp [submit_appeal, hfind, h, statusReply]
  · rcases hs with h | h | h <;>
      simp [handle_appeal_request, hfind, h, statusReply]

/-- Witness for C6 at a concrete rejected appeal. -/
theorem one_shot_appeal_witness :
    (({ emptyDB with appeal_requests := [⟨1, 2, "rejected", some 9, some 3⟩] } :
        DB).appeal_requests.find? (fun a => a.user_id == 1) =
      some ⟨1, 2, "rejected", some 9, some 3⟩) ∧
    submit_appeal 1 { emptyDB with appeal_requests := [⟨1, 2, "rejected", some 9, some 3⟩] }
        mathCache 7 =
      .ok ({ emptyDB with appeal_requests := [⟨1, 2, "rejected", some 9, some 3⟩] },
           mathCache, [statusReply "rejected"]) ∧
    handle_appeal_request (some 1)
        { emptyDB with appeal_requests := [⟨1, 2, "rejected", some 9, some 3⟩] }
        mathCache (3, 4) "1234" =
      ({ emptyDB with appeal_requests := [⟨1, 2, "rejected", some 9, some 3⟩] },
       mathCache, [statusReply "rejected"]) := by
  have h := one_shot_appeal 1 7
    { emptyDB with appeal_requests := [⟨1, 2, "rejected", some 9, some 3⟩] }
    mathCache (3, 4) "1234" ⟨1, 2, "rejected", some 9, some 3⟩ rfl
    (Or.inr (Or.inr rfl))
  exact ⟨rfl, h.1, h.2.1⟩

/- ## C4 and C5: captcha answering, attempt counting and auto-block -/

/-- Distinct naturals answer differently as decimal strings. -/
theorem toString_beq_false_of_ne {k n : Nat} (h : k ≠ n) :
    (toString k == toString n) = false := by
  rw [beq_eq_false_iff_ne]
  exact fun hc => h (toString_nat_injective hc)

/-- record_attempt returns and stores exactly the old count plus one. -/
theorem record_attempt_count (uid now : Nat) (db : DB) :
    (record_attempt uid now db).1 = get_attempt_count uid db + 1 ∧
    get_attempt_count uid (record_attempt uid now db).2 =
      get_attempt_count uid db + 1 := by
  cases hf : db.verification_attempts.find? (fun r => r.user_id == uid) with
  | none =>
      unfold record_attempt get_attempt_count
      rw [hf]
      dsimp only
      refine ⟨rfl, ?_⟩
      rw [List.find?_append, hf]
      simp
  | some r =>
      have hp : (r.user_id == uid) = true := by
        have hx := List.find?_some hf
        simpa using hx
      unfold record_attempt get_attempt_count
      rw [hf]
      dsimp only
      refine ⟨rfl, ?_⟩
      rw [find?_map_comm _ _ _ (fun s => by
        by_cases h : s.user_id == uid <;> simp [h])]
      rw [hf]
      have hq : r.user_id = uid := by simpa using hp
      simp [hq]

/-- block_user_by_attempts does not change the stored attempt count. -/
theorem block_preserves_attempt_count (uid u2 now : Nat)
    (username fn ln : Option String) (db : DB) (c : Cache) :
    get_attempt_count u2 ((block_user_by_attempts uid username fn ln now db c).1) =
      get_attempt_count u2 db := by
  unfold block_user_by_attempts get_attempt_count
  simp only
  rw [find?_map_comm _ _ _ (fun s => by
    by_cases h : s.user_id == uid <;> simp [h])]
  cases hf : db.verification_attempts.find? (fun r => r.user_id == u2) with
  | none => rfl
  | some r => by_cases h : r.user_id = uid <;> simp [h]

/-- Resetting attempts zeroes the stored count. -/
theorem get_attempt_count_reset (uid : Nat) (db : DB) :
    get_attempt_count uid (reset_attempts uid db) = 0 := by
  unfold get_attempt_count reset_attempts
  rw [find?_after_filter_ne (fun r : AttemptRow => r.user_id) _ _]

/-- C4: with a math challenge on operands (a,b), each in [1,50], outstanding
for the sender, answering with the decimal string of a+b verifies the user,
resets the attempt counter, clears the outstanding challenge and consumes the
answering message (the handler returns deny-to-router, so it is not
forwarded); answering with the decimal string of any other integer denies and
increments the stored attempt count by exactly one. -/
theorem math_captcha_roundtrip (a b now k : Nat) (m1 m2 : Msg)
    (db : DB) (c : Cache) (rng : Nat × Nat) (img : String)
    (ha : 1 ≤ a ∧ a ≤ 50) (hb : 1 ≤ b ∧ b ≤ 50)
    (hsetting : c.setting_captcha = some "math")
    (hchal : c.captcha m1.from_user.id = some (.num (a + b)))
    (hblocked : db.blocked_users.find? (fun r => r.user_id == m1.from_user.id) = none)
    (htext1 : m1.text = some (toString (a + b)))
    (hm2 : m2.from_user.id = m1.from_user.id)
    (htext2 : m2.text = some (toString k)) (hk : k ≠ a + b) :
    (∃ res, check_captcha m1 db c now rng img = .ok res ∧
       res.allow = false ∧
       res.db.verified_users.contains m1.from_user.id = true ∧
       get_attempt_count m1.from_user.id res.db = 0 ∧
       res.cache.captcha m1.from_user.id = none ∧
       res.sent = [.verificationSuccess]) ∧
    (∃ res, check_captcha m2 db c now rng img = .ok res ∧
       res.allow = false ∧
       get_attempt_count m2.from_user.id res.db =
         get_attempt_count m2.from_user.id db + 1) := by
  constructor
  · refine ⟨⟨false,
      reset_attempts m1.from_user.id (set_user_verified m1.from_user.id db c).1,
      ((set_user_verified m1.from_user.id db c).2).setCaptcha m1.from_user.id none,
      [.verificationSuccess]⟩, ?_, rfl, ?_, ?_, ?_, rfl⟩
    · have hver : verify_captcha c m1.from_user.id (pyStr m1.text) = true := by
        unfold verify_captcha
        rw [hchal, htext1]
        simp [pyStr, CaptchaVal.str]
      unfold check_captcha
      rw [if_neg (by rw [hsetting]; decide)]
      dsimp only
      rw [hblocked]
      rw [if_neg (by decide)]
      rw [hchal]
      dsimp only
      rw [hver]
      rw [if_neg (by decide)]
    · simp [reset_attempts, set_user_verified, List.elem_iff]
    · exact get_attempt_count_reset m1.from_user.id
        (set_user_verified m1.from_user.id db c).1
    · simp [Cache.setCaptcha]
  · have hver2 : verify_captcha c m2.from_user.id (pyStr m2.text) = false := by
      unfold verify_captcha
      rw [hm2, hchal, htext2]
      simpa [pyStr, CaptchaVal.str] using toString_beq_false_of_ne hk
    have hcc : c.captcha m2.from_user.id = some (.num (a + b)) := by
      rw [hm2]; exact hchal
    have hbl2 : db.blocked_users.find? (fun r => r.user_id == m2.from_user.id) = none := by
      rw [hm2]; exact hblocked
    by_cases h3 : (record_attempt m2.from_user.id now db).1 ≥ 3
    · refine ⟨⟨false,
        (block_user_by_attempts m2.from_user.id m2.from_user.username
          m2.from_user.first_name m2.from_user.last_name now
          (record_attempt m2.from_user.id now db).2 c).1,
        ((block_user_by_attempts m2.from_user.id m2.from_user.username
          m2.from_user.first_name m2.from_user.last_name now
          (record_attempt m2.from_user.id now db).2 c).2).setCaptcha
            m2.from_user.id none,
        [.autoBlockedNotice]⟩, ?_, rfl, ?_⟩
      · unfold check_captcha
        rw [if_neg (by rw [hsetting]; decide)]
        dsimp only
        rw [hbl2]
        rw [if_neg (by decide)]
        rw [hcc]
        dsimp only
        rw [hver2]
        rw [if_pos h3]
        rw [if_pos (by decide)]
      · rw [block_preserves_attempt_count]
        exact (record_attempt_count m2.from_user.id now db).2
    · refine ⟨⟨false, (record_attempt m2.from_user.id now db).2,
        c.setCaptcha m2.from_user.id (some (.num (rng.1 + rng.2))),
        [] ++ [.incorrectRetry (record_attempt m2.from_user.id now db).1
          (toString rng.1 ++ " + " ++ toString rng.2 ++ " = ?")]⟩, ?_, rfl, ?_⟩
      · unfold check_captcha
        rw [if_neg (by rw [hsetting]; decide)]
        dsimp only
        rw [hbl2]
        rw [if_neg (by decide)]
        rw [hcc]
        dsimp only
        rw [hver2]
        rw [if_neg h3]
        rw [hsetting]
        rw [if_pos (by decide)]
        rw [show generate_captcha c m2.from_user.id (some "math") rng img =
          .ok (c.setCaptcha m2.from_user.id (some (.num (rng.1 + rng.2))),
               some (toString rng.1 ++ " + " ++ toString rng.2 ++ " = ?"), []) from rfl]
      · exact (record_attempt_count m2.from_user.id now db).2

/-- Witness for C4 with operands (3,4): answering 7 verifies, answering 8
denies and moves the counter from 0 to 1. -/
theorem math_captcha_roundtrip_witness :
    ((mathCache.setCaptcha 1 (some (.num 7))).captcha 1 = some (.num 7)) ∧
    (∃ res, check_captcha (msgBob "7") emptyDB
        (mathCache.setCaptcha 1 (some (.num 7))) 5 (9, 9) "1234" = .ok res ∧
       res.allow = false ∧
       res.db.verified_users.contains 1 = true ∧
       get_attempt_count 1 res.db = 0 ∧
       res.cache.captcha 1 = none ∧
       res.sent = [.verificationSuccess]) ∧
    (∃ res, check_captcha (msgBob "8") emptyDB
        (mathCache.setCaptcha 1 (some (.num 7))) 5 (9, 9) "1234" = .ok res ∧
       res.allow = false ∧
       get_attempt_count 1 res.db = get_attempt_count 1 emptyDB + 1) := by
  have h := math_captcha_roundtrip 3 4 5 8 (msgBob "7") (msgBob "8")
    emptyDB (mathCache.setCaptcha 1 (some (.num 7))) (9, 9) "1234"
    ⟨by decide, by decide⟩ ⟨by decide, by decide⟩ rfl rfl rfl rfl rfl rfl
    (by decide)
  exact ⟨rfl, h.1, h.2⟩

/- ## C5: auto-block on the third failed attempt -/

/-- record_attempt only touches verification_attempts. -/
theorem record_attempt_blocked_users (uid now : Nat) (db : DB) :
    (record_attempt uid now db).2.blocked_users = db.blocked_users := by
  unfold record_attempt
  cases hf : db.verification_attempts.find? (fun r => r.user_id == uid) <;> rfl

/-- C5: a user with stored attempt_count 2 who sends one more wrong challenge
answer reaches attempt_count 3 and exactly then is inserted into blocked_users
with reason auto_attempts while the verified_users row is removed and the
message is denied; with a stored count whose successor is below 3 the wrong
answer blocks nothing (the threshold always and only fires at count 3 or
above). -/
theorem auto_block_on_third_attempt (m : Msg) (db : DB) (c : Cache) (now : Nat)
    (rng : Nat × Nat) (img : String) (v : CaptchaVal) (row : AttemptRow)
    (hnd : c.setting_captcha ≠ some "disable")
    (hblocked : db.blocked_users.find? (fun r => r.user_id == m.from_user.id) = none)
    (hchal : c.captcha m.from_user.id = some v)
    (hwrong : (pyStr m.text == v.str) = false)
    (hrow : db.verification_attempts.find? (fun r => r.user_id == m.from_user.id) =
      some row)
    (hcount : row.attempt_count = 2) :
    (∃ res, check_captcha m db c now rng img = .ok res ∧
       res.allow = false ∧
       get_attempt_count m.from_user.id res.db = 3 ∧
       (res.db.blocked_users.find? (fun r => r.user_id == m.from_user.id)).map
         (fun r => r.block_reason) = some "auto_attempts" ∧
       res.db.verified_users.contains m.from_user.id = false ∧
       res.cache.captcha m.from_user.id = none ∧
       res.sent = [.autoBlockedNotice]) ∧
    (∀ (db2 : DB) (row2 : AttemptRow),
       c.setting_captcha = some "math" →
       db2.blocked_users.find? (fun r => r.user_id == m.from_user.id) = none →
       db2.verification_attempts.find? (fun r => r.user_id == m.from_user.id) =
         some row2 →
       row2.attempt_count + 1 < 3 →
       ∃ res, check_captcha m db2 c now rng img = .ok res ∧
         res.allow = false ∧
         res.db.blocked_users = db2.blocked_users ∧
         get_attempt_count m.from_user.id res.db =
           get_attempt_count m.from_user.id db2 + 1) := by
  have hver : verify_captcha c m.from_user.id (pyStr m.text) = false := by
    unfold verify_captcha
    rw [hchal]
    exact hwrong
  constructor
  · have hcnt1 : (record_attempt m.from_user.id now db).1 = 3 := by
      rw [(record_attempt_count m.from_user.id now db).1]
      unfold get_attempt_count
      rw [hrow]
      dsimp only
      omega
    refine ⟨⟨false,
      (block_user_by_attempts m.from_user.id m.from_user.username
        m.from_user.first_name m.from_user.last_name now
        (record_attempt m.from_user.id now db).2 c).1,
      ((block_user_by_attempts m.from_user.id m.from_user.username
        m.from_user.first_name m.from_user.last_name now
        (record_attempt m.from_user.id now db).2 c).2).setCaptcha
          m.from_user.id none,
      [.autoBlockedNotice]⟩, ?_, rfl, ?_, ?_, ?_, ?_, rfl⟩
    · unfold check_captcha
      rw [if_neg hnd]
      dsimp only
      rw [hblocked]
      rw [if_neg (by decide)]
      rw [hchal]
      dsimp only
      rw [hver]
      have hge : (record_attempt m.from_user.id now db).1 ≥ 3 := by
        rw [hcnt1]
      rw [if_pos hge]
      rw [if_pos (by decide)]
    · rw [block_preserves_attempt_count]
      rw [(record_attempt_count m.from_user.id now db).2]
      unfold get_attempt_count
      rw [hrow]
      dsimp only
      omega
    · unfold block_user_by_attempts
      dsimp only
      rw [List.find?_append]
      rw [find?_after_filter_ne (fun r : BlockedRow => r.user_id) _ _]
      simp
    · unfold block_user_by_attempts
      dsimp only
      exact contains_after_filter_ne _ _
    · simp [Cache.setCaptcha]
  · intro db2 row2 hmath hbl2 hrow2 hlt
    have hcnt2 : ¬ ((record_attempt m.from_user.id now db2).1 ≥ 3) := by
      rw [(record_attempt_count m.from_user.id now db2).1]
      unfold get_attempt_count
      rw [hrow2]
      dsimp only
      omega
    refine ⟨⟨false, (record_attempt m.from_user.id now db2).2,
      c.setCaptcha m.from_user.id (some (.num (rng.1 + rng.2))),
      [] ++ [.incorrectRetry (record_attempt m.from_user.id now db2).1
        (toString rng.1 ++ " + " ++ toString rng.2 ++ " = ?")]⟩, ?_, rfl, ?_, ?_⟩
    · unfold check_captcha
      rw [if_neg hnd]
      dsimp only
      rw [hbl2]
      rw [if_neg (by decide)]
      rw [hchal]
      dsimp only
      rw [hver]
      rw [if_neg hcnt2]
      rw [hmath]
      rw [if_pos (by decide)]
      rw [show generate_captcha c m.from_user.id (some "math") rng img =
        .ok (c.setCaptcha m.from_user.id (some (.num (rng.1 + rng.2))),
             some (toString rng.1 ++ " + " ++ toString rng.2 ++ " = ?"), []) from rfl]
    · exact record_attempt_blocked_users m.from_user.id now db2
    · exact (record_attempt_count m.from_user.id now db2).2

/-- Witness for C5: uBob at attempt_count 2 answers 9 against challenge 7 and
is auto-blocked at count 3; at attempt_count 0 the same wrong answer merely
counts to 1. -/
theorem auto_block_on_third_attempt_witness :
    (({ emptyDB with verification_attempts := [⟨1, 2, 0, false⟩] } :
        DB).verification_attempts.find? (fun r => r.user_id == 1) =
      some ⟨1, 2, 0, false⟩) ∧
    (∃ res, check_captcha (msgBob "9") { emptyDB with
        verification_attempts := [⟨1, 2, 0, false⟩] }
        (mathCache.setCaptcha 1 (some (.num 7))) 5 (9, 9) "1234" = .ok res ∧
       res.allow = false ∧
       get_attempt_count 1 res.db = 3 ∧
       (res.db.blocked_users.find? (fun r => r.user_id == 1)).map
         (fun r => r.block_reason) = some "auto_attempts" ∧
       res.db.verified_users.contains 1 = false ∧
       res.cache.captcha 1 = none ∧
       res.sent = [.autoBlockedNotice]) ∧
    (∃ res, check_captcha (msgBob "9") { emptyDB with
        verification_attempts := [⟨1, 0, 0, false⟩] }
        (mathCache.setCaptcha 1 (some (.num 7))) 5 (9, 9) "1234" = .ok res ∧
       res.allow = false ∧
       res.db.blocked_users = ({ emptyDB with
         verification_attempts := [⟨1, 0, 0, false⟩] } : DB).blocked_users ∧
       get_attempt_count 1 res.db =
         get_attempt_count 1 { emptyDB with
           verification_attempts := [⟨1, 0, 0, false⟩] } + 1) := by
  have h := auto_block_on_third_attempt (msgBob "9")
    { emptyDB with verification_attempts := [⟨1, 2, 0, false⟩] }
    (mathCache.setCaptcha 1 (some (.num 7))) 5 (9, 9) "1234"
    (.num 7) ⟨1, 2, 0, false⟩ (by decide) rfl rfl (by decide) rfl rfl
  exact ⟨rfl, h.1, h.2 { emptyDB with verification_attempts := [⟨1, 0, 0, false⟩] }
    ⟨1, 0, 0, false⟩ rfl rfl rfl (by decide)⟩

/- ## C7: thread-loss recovery -/

/-- C7: when the transport reports the target thread missing, the forward
deletes the stale topics rows for that thread, invalidates both cache entries
(thread-id keyed and user-id keyed), persists no correlation row, reports a
recoverable failure (fwd none, no fatal alert, no automatic retry inside the
operation), and the next inbound thread resolution for the same user lazily
creates a fresh thread. -/
theorem thread_loss_recovery (m : Msg) (tid : Nat) (db : DB) (c : Cache)
    (honly : ∀ t ∈ db.topics, t.user_id = m.from_user.id → t.thread_id = tid) :
    (forward_to_group m tid .threadNotFound db c).fwd = none ∧
    (forward_to_group m tid .threadNotFound db c).db.topics =
      db.topics.filter (fun t => t.thread_id != tid) ∧
    (forward_to_group m tid .threadNotFound db c).db.messages = db.messages ∧
    (forward_to_group m tid .threadNotFound db c).cache.threadid_userid tid =
      none ∧
    (forward_to_group m tid .threadNotFound db c).cache.chat_threadid
      m.from_user.id = none ∧
    (∀ t2, t2 ≠ tid →
      (forward_to_group m tid .threadNotFound db c).cache.threadid_userid t2 =
        c.threadid_userid t2) ∧
    (∀ u2, u2 ≠ m.from_user.id →
      (forward_to_group m tid .threadNotFound db c).cache.chat_threadid u2 =
        c.chat_threadid u2) ∧
    (forward_to_group m tid .threadNotFound db c).sent = [] ∧
    (∀ (newTid : Nat) (pinOk : Bool),
      (get_or_create_thread m (forward_to_group m tid .threadNotFound db c).db
        (forward_to_group m tid .threadNotFound db c).cache (some newTid)
        pinOk).thread_id = some newTid ∧
      (⟨m.from_user.id, newTid⟩ : TopicRow) ∈
        (get_or_create_thread m (forward_to_group m tid .threadNotFound db c).db
          (forward_to_group m tid .threadNotFound db c).cache (some newTid)
          pinOk).db.topics) := by
  have hc5 : (forward_to_group m tid .threadNotFound db c).cache.chat_threadid
      m.from_user.id = none := by
    simp [forward_to_group, Cache.setThreadUser, Cache.setChatThread]
  have hnotop : ((forward_to_group m tid .threadNotFound db c).db.topics.find?
      (fun t => t.user_id == m.from_user.id)) = none := by
    apply List.find?_eq_none.mpr
    intro t ht
    have hmem := List.mem_filter.mp ht
    simp only [beq_iff_eq]
    intro heq
    have htid := honly t hmem.1 heq
    have hne := hmem.2
    simp [htid] at hne
  refine ⟨rfl, rfl, rfl, ?_, hc5, ?_, ?_, rfl, ?_⟩
  · simp [forward_to_group, Cache.setThreadUser, Cache.setChatThread]
  · intro t2 ht2
    simp [forward_to_group, Cache.setThreadUser, Cache.setChatThread, ht2]
  · intro u2 hu2
    simp [forward_to_group, Cache.setThreadUser, Cache.setChatThread, hu2]
  · intro newTid pinOk
    unfold get_or_create_thread
    dsimp only
    rw [hc5]
    dsimp only
    rw [hnotop]
    dsimp only
    constructor
    · rfl
    · simp

/-- Witness for C7: a store whose only topic row for uBob is thread 50. -/
theorem thread_loss_recovery_witness :
    (∀ t ∈ ({ emptyDB with topics := [⟨1, 50⟩] } : DB).topics,
       t.user_id = (msgBob "hi").from_user.id → t.thread_id = 50) ∧
    (forward_to_group (msgBob "hi") 50 .threadNotFound
      { emptyDB with topics := [⟨1, 50⟩] } emptyCache).fwd = none ∧
    (forward_to_group (msgBob "hi") 50 .threadNotFound
      { emptyDB with topics := [⟨1, 50⟩] } emptyCache).db.topics = [] ∧
    (get_or_create_thread (msgBob "hi")
      (forward_to_group (msgBob "hi") 50 .threadNotFound
        { emptyDB with topics := [⟨1, 50⟩] } emptyCache).db
      (forward_to_group (msgBob "hi") 50 .threadNotFound
        { emptyDB with topics := [⟨1, 50⟩] } emptyCache).cache
      (some 60) true).thread_id = some 60 := by
  have honly : ∀ t ∈ ({ emptyDB with topics := [⟨1, 50⟩] } : DB).topics,
      t.user_id = (msgBob "hi").from_user.id → t.thread_id = 50 := by
    intro t ht _
    simp [emptyDB] at ht
    rw [ht]
  have h := thread_loss_recovery (msgBob "hi") 50
    { emptyDB with topics := [⟨1, 50⟩] } emptyCache honly
  exact ⟨honly, h.1, by rw [h.2.1]; rfl, (h.2.2.2.2.2.2.2.2 60 true).1⟩

/- ## C10: blocked-user deny path frame -/

/-- Display-field refresh preserves identity, reason and time of every row. -/
theorem map_blockedShape_names (l : List BlockedRow) (uid : Nat)
    (u f ln : Option String) :
    ((l.map (fun b => if b.user_id == uid then
        { b with username := u, first_name := f, last_name := ln }
      else b)).map blockedShape) = l.map blockedShape := by
  rw [List.map_map]
  apply List.map_congr_left
  intro b _
  by_cases h : b.user_id = uid <;> simp [blockedShape, Function.comp, h]

/-- C10: an inbound message from a user with a blocked_users row who is not in
appeal verification is never forwarded and mutates at most the username,
first_name and last_name fields of that user's blocked_users rows: topics,
messages, verified_users, verification_attempts and appeal_requests are
unchanged and every blocked row keeps its user_id, block_reason and
blocked_at. -/
theorem blocked_user_frame (m : Msg) (db : DB) (c : Cache) (inp : Inputs)
    (row : BlockedRow)
    (hb : db.blocked_users.find? (fun r => r.user_id == m.from_user.id) = some row)
    (hav : c.appeal_verification m.from_user.id = false) :
    ∃ res, handle_user_message m db c inp = .ok res ∧
      res.forwarded = none ∧
      res.db.topics = db.topics ∧
      res.db.messages = db.messages ∧
      res.db.verified_users = db.verified_users ∧
      res.db.verification_attempts = db.verification_attempts ∧
      res.db.appeal_requests = db.appeal_requests ∧
      res.db.blocked_users.map blockedShape = db.blocked_users.map blockedShape := by
  by_cases hd : c.setting_captcha = some "disable"
  · by_cases he : c.setting_blocked_user_reply_enabled = some "enable"
    · cases hmsg : c.setting_blocked_user_reply_message with
      | some t =>
          refine ⟨⟨{ db with blocked_users := db.blocked_users.map (fun b =>
              if b.user_id == m.from_user.id then
                { b with username := m.from_user.username,
                         first_name := m.from_user.first_name,
                         last_name := m.from_user.last_name }
              else b) }, c, [] ++ [.blockedAutoReply t], none⟩,
            ?_, rfl, rfl, rfl, rfl, rfl, rfl,
            map_blockedShape_names _ _ _ _ _⟩
          unfold handle_user_message check_captcha
          rw [if_pos hd]
          dsimp only
          rw [if_neg (by decide)]
          rw [hb]
          rw [if_pos (show ((some row).isSome = true) from rfl)]
          rw [if_pos he]
          rw [hmsg]
      | none =>
          refine ⟨⟨{ db with blocked_users := db.blocked_users.map (fun b =>
              if b.user_id == m.from_user.id then
                { b with username := m.from_user.username,
                         first_name := m.from_user.first_name,
                         last_name := m.from_user.last_name }
              else b) }, c, [] ++ [], none⟩,
            ?_, rfl, rfl, rfl, rfl, rfl, rfl,
            map_blockedShape_names _ _ _ _ _⟩
          unfold handle_user_message check_captcha
          rw [if_pos hd]
          dsimp only
          rw [if_neg (by decide)]
          rw [hb]
          rw [if_pos (show ((some row).isSome = true) from rfl)]
          rw [if_pos he]
          rw [hmsg]
    · refine ⟨⟨{ db with blocked_users := db.blocked_users.map (fun b =>
          if b.user_id == m.from_user.id then
            { b with username := m.from_user.username,
                     first_name := m.from_user.first_name,
                     last_name := m.from_user.last_name }
          else b) }, c, [] ++ [], none⟩,
        ?_, rfl, rfl, rfl, rfl, rfl, rfl,
        map_blockedShape_names _ _ _ _ _⟩
      unfold handle_user_message check_captcha
      rw [if_pos hd]
      dsimp only
      rw [if_neg (by decide)]
      rw [hb]
      rw [if_pos (show ((some row).isSome = true) from rfl)]
      rw [if_neg he]
  · refine ⟨⟨db, c, [.blockedNotice], none⟩, ?_, rfl, rfl, rfl, rfl, rfl, rfl, rfl⟩
    unfold handle_user_message check_captcha
    rw [if_neg hd]
    dsimp only
    rw [hb]
    rw [if_pos (show ((some row).isSome = true) from rfl)]
    rw [hav]
    rw [if_neg (by decide)]
    dsimp only
    rw [if_pos (by decide)]

/-- Witness for C10: a blocked uBob under an enabled captcha setting. -/
theorem blocked_user_frame_witness :
    (exBlockedDB.blocked_users.find? (fun r => r.user_id == 1) =
      some ⟨1, none, none, none, "auto_attempts", 0⟩) ∧
    (∃ res, handle_user_message (msgBob "hello") exBlockedDB mathCache
        ⟨5, (9, 9), "1234", false, none, none, true, .otherError⟩ = .ok res ∧
      res.forwarded = none ∧
      res.db.topics = exBlockedDB.topics ∧
      res.db.messages = exBlockedDB.messages ∧
      res.db.verified_users = exBlockedDB.verified_users ∧
      res.db.verification_attempts = exBlockedDB.verification_attempts ∧
      res.db.appeal_requests = exBlockedDB.appeal_requests ∧
      res.db.blocked_users.map blockedShape =
        exBlockedDB.blocked_users.map blockedShape) :=
  ⟨rfl, blocked_user_frame (msgBob "hello") exBlockedDB mathCache
    ⟨5, (9, 9), "1234", false, none, none, true, .otherError⟩
    ⟨1, none, none, none, "auto_attempts", 0⟩ rfl rfl⟩
